import Mathlib

/-!
Verification of the Ollama prompt-enhancement plugin
(`src/ollama/client.py`, `src/ollama/config.py`).

The Python code is shallowly embedded: every function that the claims touch
is translated into a total, executable Lean definition.  Python exceptions
are modelled with `Option` / `Except`; the HTTP layer is modelled by an
`HttpOutcome` value describing what the single `session.post` call did
(timeout, connection error, or a status/body pair); `json.loads` is modelled
by an executable JSON parser (`loads` below) covering the grammar Python's
strict-mode decoder accepts.
-/

namespace OllamaPlugin

/-! ### Python string primitives

Models of the `str` methods the client uses: `strip` (whitespace from both
ends), `lower`, `split` on a newline, `startswith`, slicing by a length, and
the substring test of the `in` operator.  All work on the character list so
that concrete inputs evaluate by `rfl` / `decide`.  `Char.toLower` only
lowers ASCII letters; the spec examples and the repository prompts are ASCII,
so this matches Python `str.lower` on every input we reason about. -/

/-- The characters Python `str.strip()` removes: space, tab, newline,
carriage return, form feed, vertical tab. -/
def isPySpace (c : Char) : Bool :=
  c = ' ' || c = '\t' || c = '\n' || c = '\r' || c = '\x0c' || c = '\x0b'

/-- Python `str.strip()` on a character list. -/
def pyStripList (cs : List Char) : List Char :=
  ((cs.dropWhile isPySpace).reverse.dropWhile isPySpace).reverse

/-- Python `str.strip()`. -/
def pyStrip (s : String) : String := String.mk (pyStripList s.data)

/-- Python `str.lower()` (ASCII range). -/
def pyLower (s : String) : String := String.mk (s.data.map Char.toLower)

/-- Python `s[n:]` slicing (drops the first `n` code points). -/
def pyDrop (s : String) (n : Nat) : String := String.mk (s.data.drop n)

/-- List version of Python `str.startswith`. -/
def leadsList : List Char → List Char → Bool
  | [], _ => true
  | _ :: _, [] => false
  | a :: asx, b :: bs => a = b && leadsList asx bs

/-- Python `str.startswith(pat)`. -/
def pyStarts (s pat : String) : Bool := leadsList pat.data s.data

/-- List version of the Python substring test `needle in hay`. -/
def hasSubList (needle : List Char) : List Char → Bool
  | [] => leadsList needle []
  | c :: cs => leadsList needle (c :: cs) || hasSubList needle cs

/-- Python substring test `needle in hay` for strings. -/
def pyContains (hay needle : String) : Bool := hasSubList needle.data hay.data

/-- Splitter for Python `str.split(chr(10))`: returns the current segment and
the list of later segments, walking the characters from the left. -/
def splitNlAux : List Char → (List Char × List (List Char))
  | [] => ([], [])
  | c :: rest =>
    let r := splitNlAux rest
    if c = '\n' then ([], r.1 :: r.2) else (c :: r.1, r.2)

/-- Python `str.split(chr(10))` (the client splits on a literal newline). -/
def splitLines (s : String) : List String :=
  let r := splitNlAux s.data
  (r.1 :: r.2).map String.mk

/-! ### The decoded JSON value and a model of `json.loads`

`Json.num` stores the numeric lexeme (the client never computes with
numbers; the lexeme is exactly what matters for rendering integers, and is a
faithful-enough stand-in for Python float rendering).  Objects keep Python
`dict` semantics: first-occurrence key order, later duplicate keys overwrite
the stored value in place. -/

inductive Json where
  | null
  | bool (b : Bool)
  | num (lexeme : String)
  | str (s : String)
  | arr (elems : List Json)
  | obj (fields : List (String × Json))
deriving Inhabited, Repr

/-- Python `dict` insertion: overwrite the value in place if the key exists,
otherwise append the pair. -/
def dictInsert (fs : List (String × Json)) (k : String) (v : Json) :
    List (String × Json) :=
  if fs.any (fun p => p.1 = k) then
    fs.map (fun p => if p.1 = k then (k, v) else p)
  else fs ++ [(k, v)]

/-- Python `d[k]` on a decoded object (keys are unique after `dictInsert`). -/
def dictLookup (fs : List (String × Json)) (k : String) : Option Json :=
  (fs.find? (fun p => p.1 = k)).map (fun p => p.2)

/-- JSON structural whitespace (what Python `json.loads` skips between
tokens: space, tab, newline, carriage return — narrower than `str.strip`). -/
def isJsonWs (c : Char) : Bool := c = ' ' || c = '\t' || c = '\n' || c = '\r'

/-- Skip JSON structural whitespace. -/
def skipJsonWs (cs : List Char) : List Char := cs.dropWhile isJsonWs

/-- Hex digit value, for string `\uXXXX` escapes. -/
def hexVal (c : Char) : Option Nat :=
  if '0' ≤ c ∧ c ≤ '9' then some (c.toNat - '0'.toNat)
  else if 'a' ≤ c ∧ c ≤ 'f' then some (c.toNat - 'a'.toNat + 10)
  else if 'A' ≤ c ∧ c ≤ 'F' then some (c.toNat - 'A'.toNat + 10)
  else none

/-- Parse the body of a JSON string literal (after the opening quote),
accumulating decoded characters; strict mode rejects raw control
characters, as Python does by default. -/
def parseStrBody (fuel : Nat) (cs : List Char) (acc : List Char) :
    Option (String × List Char) :=
  match fuel with
  | 0 => none
  | fuel + 1 =>
    match cs with
    | [] => none
    | '"' :: rest => some (String.mk acc.reverse, rest)
    | '\\' :: e :: rest =>
      match e with
      | '"' => parseStrBody fuel rest ('"' :: acc)
      | '\\' => parseStrBody fuel rest ('\\' :: acc)
      | '/' => parseStrBody fuel rest ('/' :: acc)
      | 'b' => parseStrBody fuel rest ('\x08' :: acc)
      | 'f' => parseStrBody fuel rest ('\x0c' :: acc)
      | 'n' => parseStrBody fuel rest ('\n' :: acc)
      | 'r' => parseStrBody fuel rest ('\r' :: acc)
      | 't' => parseStrBody fuel rest ('\t' :: acc)
      | 'u' =>
        match rest with
        | h1 :: h2 :: h3 :: h4 :: rest2 =>
          match hexVal h1, hexVal h2, hexVal h3, hexVal h4 with
          | some a, some b, some c, some d =>
            parseStrBody fuel rest2
              (Char.ofNat (((a * 16 + b) * 16 + c) * 16 + d) :: acc)
          | _, _, _, _ => none
        | _ => none
      | _ => none
    | c :: rest =>
      if c.toNat < 32 then none else parseStrBody fuel rest (c :: acc)

/-- Take a run of decimal digits. -/
def takeDigits : List Char → (List Char × List Char)
  | [] => ([], [])
  | c :: cs =>
    if '0' ≤ c ∧ c ≤ '9' then
      let r := takeDigits cs
      (c :: r.1, r.2)
    else ([], c :: cs)

/-- The optional fraction of a JSON number: a dot must be followed by at
least one digit. -/
def parseFrac : List Char → Option (List Char × List Char)
  | '.' :: rest =>
    let r := takeDigits rest
    if r.1 = [] then none else some ('.' :: r.1, r.2)
  | cs => some ([], cs)

/-- The optional exponent of a JSON number: `e`/`E`, an optional sign, then
at least one digit. -/
def parseExp : List Char → Option (List Char × List Char)
  | e :: rest =>
    if e = 'e' ∨ e = 'E' then
      let (sgn, rest2) :=
        match rest with
        | '+' :: r => ((['+'] : List Char), r)
        | '-' :: r => (['-'], r)
        | _ => ([], rest)
      let r := takeDigits rest2
      if r.1 = [] then none else some (e :: sgn ++ r.1, r.2)
    else some ([], e :: rest)
  | [] => some ([], [])

/-- Parse a JSON number starting at `cs` (the RFC 8259 grammar, as Python
enforces: no leading zeros, a fraction and an exponent need digits).
Returns the consumed lexeme. -/
def parseNum (cs : List Char) : Option (String × List Char) :=
  let (sign, cs1) :=
    match cs with
    | '-' :: rest => ((['-'] : List Char), rest)
    | _ => ([], cs)
  match cs1 with
  | [] => none
  | c :: rest =>
    if ¬('0' ≤ c ∧ c ≤ '9') then none
    else
      let (intPart, cs2) :=
        if c = '0' then ([c], rest)
        else
          let r := takeDigits rest
          (c :: r.1, r.2)
      match parseFrac cs2 with
      | none => none
      | some (fracPart, cs3) =>
        match parseExp cs3 with
        | none => none
        | some (expPart, cs4) =>
          some (String.mk (sign ++ intPart ++ fracPart ++ expPart), cs4)

mutual

/-- Parse one JSON value (leading whitespace allowed).  `fuel` only bounds
recursion depth; the top entry supplies enough for any input of the given
length.  Python `json.loads` also accepts the non-standard `NaN`,
`Infinity` and `-Infinity`, which decode to floats rendered `nan` / `inf`. -/
def parseValue (fuel : Nat) (cs : List Char) : Option (Json × List Char) :=
  match fuel with
  | 0 => none
  | fuel + 1 =>
    match skipJsonWs cs with
    | '{' :: rest => parseObjFields fuel (skipJsonWs rest) [] true
    | '[' :: rest => parseArrElems fuel (skipJsonWs rest) [] true
    | '"' :: rest =>
      (parseStrBody (rest.length + 1) rest []).map (fun r => (Json.str r.1, r.2))
    | 't' :: 'r' :: 'u' :: 'e' :: rest => some (Json.bool true, rest)
    | 'f' :: 'a' :: 'l' :: 's' :: 'e' :: rest => some (Json.bool false, rest)
    | 'n' :: 'u' :: 'l' :: 'l' :: rest => some (Json.null, rest)
    | 'N' :: 'a' :: 'N' :: rest => some (Json.num "nan", rest)
    | 'I' :: 'n' :: 'f' :: 'i' :: 'n' :: 'i' :: 't' :: 'y' :: rest =>
      some (Json.num "inf", rest)
    | '-' :: 'I' :: 'n' :: 'f' :: 'i' :: 'n' :: 'i' :: 't' :: 'y' :: rest =>
      some (Json.num "-inf", rest)
    | other => (parseNum other).map (fun r => (Json.num r.1, r.2))

/-- Parse object members; `first` is true before any member has been read
(so `\x7d` closes an empty object). -/
def parseObjFields (fuel : Nat) (cs : List Char)
    (acc : List (String × Json)) (first : Bool) : Option (Json × List Char) :=
  match fuel with
  | 0 => none
  | fuel + 1 =>
    match cs with
    | '}' :: rest =>
      if first then some (Json.obj acc, rest) else none
    | '"' :: rest =>
      match parseStrBody (rest.length + 1) rest [] with
      | none => none
      | some (key, cs2) =>
        match skipJsonWs cs2 with
        | ':' :: cs3 =>
          match parseValue fuel cs3 with
          | none => none
          | some (v, cs4) =>
            match skipJsonWs cs4 with
            | ',' :: cs5 =>
              match skipJsonWs cs5 with
              | '"' :: cs6 =>
                parseObjFields fuel ('"' :: cs6) (dictInsert acc key v) false
              | _ => none
            | '}' :: cs5 => some (Json.obj (dictInsert acc key v), cs5)
            | _ => none
        | _ => none
    | _ => none

/-- Parse array elements; `first` is true before any element has been read. -/
def parseArrElems (fuel : Nat) (cs : List Char)
    (acc : List Json) (first : Bool) : Option (Json × List Char) :=
  match fuel with
  | 0 => none
  | fuel + 1 =>
    match cs with
    | ']' :: rest =>
      if first then some (Json.arr acc.reverse, rest) else none
    | _ =>
      match parseValue fuel cs with
      | none => none
      | some (v, cs2) =>
        match skipJsonWs cs2 with
        | ',' :: cs3 => parseArrElems fuel cs3 (v :: acc) false
        | ']' :: cs3 => some (Json.arr (v :: acc).reverse, cs3)
        | _ => none

end

/-- Model of Python `json.loads`: parse one value and require only
whitespace after it (Python raises `Extra data` otherwise); `none` models a
raised `json.JSONDecodeError`. -/
def loads (s : String) : Option Json :=
  match parseValue (s.data.length + 1) s.data with
  | some (v, rest) => if skipJsonWs rest = [] then some v else none
  | none => none

/-! ### Python `str()` / `repr()` of decoded JSON values

`enhance_prompt` calls `str(response_data)` when the decoded reply has no
`response` key.  `repr` of a decoded value prints dict/list literals with
single-quoted strings, `True`/`False`/`None` keywords, and `, ` / `: `
separators; `str` at the top level is the identity on strings and `repr`
otherwise.  Number lexemes are printed as stored (exact for integers).
String quoting is modelled with plain single quotes (Python escapes quotes
and backslashes inside; no claim depends on that corner). -/

/-- A single-quote character as a string. -/
def pySq : String := String.singleton (Char.ofNat 39)

/-- Python `repr` of a decoded JSON value, with recursion fuel (Python
itself hits `RecursionError` on deeply nested data). -/
def pyReprF : Nat → Json → String
  | 0, _ => ""
  | fuel + 1, v =>
    match v with
    | .null => "None"
    | .bool true => "True"
    | .bool false => "False"
    | .num lex => lex
    | .str s => pySq ++ s ++ pySq
    | .arr xs => "[" ++ String.intercalate ", " (xs.map (pyReprF fuel)) ++ "]"
    | .obj fs =>
      "\x7b" ++
        String.intercalate ", "
          (fs.map (fun kv => pySq ++ kv.1 ++ pySq ++ ": " ++ pyReprF fuel kv.2)) ++
        "\x7d"

/-- Python `repr` of a decoded JSON value. -/
def pyRepr (v : Json) : String := pyReprF 1000 v

/-- Python `str()` of a decoded JSON value: identity on strings, `repr`
otherwise. -/
def pyStr : Json → String
  | .str s => s
  | v => pyRepr v

/-! ### `OllamaClient._parse_response` (client.py lines 85-129)

The whole body is a `try` block; `parse_response_try` returns `none` when a
statement inside it raises (`json.loads` failing, or `.strip()` on a
non-string field value raising `AttributeError`), and the wrapper
`parse_response` models the `except` clause, which returns the stripped raw
text. -/

/-- The label prefixes removed from a candidate line (client.py line 114),
checked in this order with a `break` after the first match. -/
def knownLabels : List String :=
  ["Enhanced prompt:", "Result:", "Output:", "Enhanced:"]

/-- Strip the first matching known label from a line, then `strip()` the
remainder (client.py lines 113-118). -/
def stripLabel (line : String) : String :=
  match knownLabels.find? (fun p => pyStarts line p) with
  | some p => pyStrip (pyDrop line p.length)
  | none => line

/-- One iteration of the line scan (client.py lines 110-121): strip the
line; skip it when empty or a `#` / `//` comment; strip a known label;
yield it if still non-empty. -/
def qualifyLine (raw : String) : Option String :=
  let line := pyStrip raw
  if !line.isEmpty && !pyStarts line "#" && !pyStarts line "//" then
    let stripped := stripLabel line
    if !stripped.isEmpty then some stripped else none
  else none

/-- The plain-text branch (client.py lines 106-124): split the stripped
body into lines, return the first qualifying line, else the whole stripped
body. -/
def scanLines (s : String) : String :=
  match (splitLines (pyStrip s)).findSome? qualifyLine with
  | some l => l
  | none => pyStrip s

/-- The `try` block of `_parse_response` (client.py lines 97-124): attempt
JSON when the stripped body opens with a brace, read a string `response` or
`text` field, otherwise fall through to the line scan.  `none` models an
exception inside the block: `json.loads` raising on malformed JSON, or
`.strip()` raising `AttributeError` because the field value is not a
string. -/
def parse_response_try (s : String) : Option String :=
  if pyStarts (pyStrip s) "\x7b" then
    match loads s with
    | none => none
    | some (Json.obj fields) =>
      match dictLookup fields "response" with
      | some (Json.str v) => some (pyStrip v)
      | some _ => none
      | none =>
        match dictLookup fields "text" with
        | some (Json.str v) => some (pyStrip v)
        | some _ => none
        | none => some (scanLines s)
    | some _ => some (scanLines s)
  else some (scanLines s)

/-- `OllamaClient._parse_response`: the `try` block, with the `except`
handler returning the stripped raw text (client.py lines 126-129). -/
def parse_response (s : String) : String :=
  (parse_response_try s).getD (pyStrip s)

/-- The combination rule of `enhance_prompt` (client.py lines 192-196):
append `, ` and the generated text when the latter is non-empty and differs
case-insensitively from the original prompt, else keep the original. -/
def combine (original enhanced : String) : String :=
  if enhanced ≠ "" ∧ pyLower enhanced ≠ pyLower original then
    original ++ ", " ++ enhanced
  else original

/-! ### Configuration (`config.py`)

`OllamaConfig` is the validated value object: `timeout` in `1..300`,
`max_retries` in `1..10`, the `model` validator rejects an empty or
whitespace-only name and stores the stripped name.  `endpoint` holds the
string form of the validated `HttpUrl`.  pydantic collects one error per
invalid field; `mkOllamaConfig` models construction, returning the list of
field errors when any field is out of range. -/

structure OllamaConfig where
  endpoint : String
  model : String
  timeout : Int
  max_retries : Int
deriving DecidableEq, Repr

/-- A pydantic validation error for one field. -/
inductive ConfigError where
  | invalidValue (field : String)
deriving DecidableEq, Repr

/-- The validation errors collected by pydantic for the three constrained
fields of `OllamaConfig` (config.py lines 14-23): the `Field` range
constraints `ge=1, le=300` on `timeout` and `ge=1, le=10` on
`max_retries`, and the `validate_model` validator, which raises on an
empty or whitespace-only name (`not v or len(v.strip()) == 0` is exactly
`v.strip() == ""`). -/
def configErrors (model : String) (timeout max_retries : Int) : List ConfigError :=
  (if timeout < 1 ∨ 300 < timeout then [ConfigError.invalidValue "timeout"] else [])
  ++ (if max_retries < 1 ∨ 10 < max_retries then
        [ConfigError.invalidValue "max_retries"] else [])
  ++ (if pyStrip model = "" then [ConfigError.invalidValue "model"] else [])

/-- Construction of `OllamaConfig` (config.py lines 9-23): pydantic raises
a `ValidationError` carrying every field error when any field is invalid,
and otherwise builds the object, with the `model` validator storing the
stripped name. -/
def mkOllamaConfig (endpoint model : String) (timeout max_retries : Int) :
    Except (List ConfigError) OllamaConfig :=
  if (configErrors model timeout max_retries).isEmpty then
    .ok { endpoint := endpoint, model := pyStrip model,
          timeout := timeout, max_retries := max_retries }
  else .error (configErrors model timeout max_retries)

/-- The pydantic defaults of `OllamaConfig` (endpoint as normalized by
pydantic `HttpUrl`, which appends the root path). -/
def defaultOllamaConfig : OllamaConfig :=
  { endpoint := "http://localhost:11434/", model := "openhermes",
    timeout := 30, max_retries := 5 }

/-! ### `OllamaClient.enhance_prompt` (client.py lines 131-214)

The network call is modelled by an `HttpOutcome`: what the single
`session.post` (with its internal urllib3 retries already applied) did.
Python exceptions inside the `try` block are modelled by `PyExc`; the
`except` clauses at lines 201-214 turn every one of them into an
`OllamaAPIError` whose message identifies the failure. -/

/-- Result of the `session.post` call: a timeout, a connection failure, or
a final HTTP response with status code and body text. -/
inductive HttpOutcome where
  | timeout
  | connError
  | ok (status : Nat) (body : String)
deriving DecidableEq, Repr

/-- The Python exceptions that can arise inside the `try` block of
`enhance_prompt`.  Built-in exceptions appear without their message text
(no claim depends on it); `ollamaAPIError` carries its message, which is
what `str(e)` yields for it. -/
inductive PyExc where
  | requestsTimeout
  | requestsConnectionError
  | jsonDecodeError
  | attributeError
  | typeError
  | ollamaAPIError (msg : String)
deriving DecidableEq, Repr

/-- Python `str(e)` for the exceptions above; built-in messages are
abbreviated stand-ins (their exact wording is irrelevant to every claim),
while `str` of an `OllamaAPIError` is its message. -/
def excStr : PyExc → String
  | .requestsTimeout => "timed out"
  | .requestsConnectionError => "connection refused"
  | .jsonDecodeError => "Expecting value"
  | .attributeError => "object has no attribute strip"
  | .typeError => "type error"
  | .ollamaAPIError m => m

/-- Message of the non-200 `OllamaAPIError` (client.py line 174). -/
def statusMsg (status : Nat) (body : String) : String :=
  "API request failed with status " ++ (toString status ++ (": " ++ body))

/-- Message of the timeout handler (client.py line 202). -/
def timeoutMsg (cfg : OllamaConfig) : String :=
  "Request timeout after " ++ (toString cfg.timeout ++ "s")

/-- Message of the connection-error handler (client.py line 207). -/
def connectionMsg (cfg : OllamaConfig) : String :=
  "Connection error to " ++ cfg.endpoint

/-- Message of the generic handler (client.py line 212). -/
def unexpectedMsg (inner : String) : String :=
  "Unexpected error during prompt enhancement: " ++ inner

/-- The `try` block of `enhance_prompt` (client.py lines 145-199): check
the status, decode the body with `response.json()`, extract the `response`
field through `_parse_response` when present (a non-string value makes the
`.strip()` calls inside `_parse_response` raise `AttributeError`), else
take `str(response_data)` — for a decoded non-dict, `in` / indexing raise
`TypeError` as in Python — then apply the combination rule.  Note the
non-200 `OllamaAPIError` raised at line 176 is itself inside the `try`. -/
def enhanceTry (original : String) (h : HttpOutcome) : Except PyExc String :=
  match h with
  | .timeout => .error .requestsTimeout
  | .connError => .error .requestsConnectionError
  | .ok status body =>
    if status = 200 then
      match loads body with
      | none => .error .jsonDecodeError
      | some data =>
        match data with
        | .obj fields =>
          match dictLookup fields "response" with
          | some (Json.str v) => .ok (combine original (parse_response v))
          | some _ => .error .attributeError
          | none => .ok (combine original (pyStr (Json.obj fields)))
        | .arr elems =>
          if elems.any (fun e => match e with | Json.str s => s = "response" | _ => false)
          then .error .typeError
          else .ok (combine original (pyStr (Json.arr elems)))
        | .str s =>
          if pyContains s "response" then .error .typeError
          else .ok (combine original s)
        | _ => .error .typeError
    else .error (.ollamaAPIError (statusMsg status body))

/-- `OllamaClient.enhance_prompt`: the `try` block wrapped by the three
`except` clauses (client.py lines 201-214), in source order — `Timeout`,
then `ConnectionError`, then the catch-all that wraps any other exception
(including the non-200 `OllamaAPIError`) in a fresh `OllamaAPIError`. -/
def enhance_prompt (cfg : OllamaConfig) (original : String) (h : HttpOutcome) :
    Except PyExc String :=
  match enhanceTry original h with
  | .ok r => .ok r
  | .error .requestsTimeout => .error (.ollamaAPIError (timeoutMsg cfg))
  | .error .requestsConnectionError => .error (.ollamaAPIError (connectionMsg cfg))
  | .error e => .error (.ollamaAPIError (unexpectedMsg (excStr e)))

/-! ### Batch and pool (`client.py` lines 216-242 and 285-337)

Both are parametrised by `outcomes : Nat → HttpOutcome`, the network
behaviour seen by the call made for prompt index `i`.  The per-item
`try/except` substitutes the original prompt on any failure. -/

/-- One slot of a batch: the enhanced prompt on success, the original
prompt when `enhance_prompt` raised (the per-item `except` clause). -/
def fallbackSlot (cfg : OllamaConfig) (p : String) (h : HttpOutcome) : String :=
  match enhance_prompt cfg p h with
  | .ok r => r
  | .error _ => p

/-- The loop of `enhance_prompts_batch` (client.py lines 227-240),
carrying the running index (the `time.sleep` between iterations has no
observable effect on the result). -/
def batchAux (cfg : OllamaConfig) (outcomes : Nat → HttpOutcome) (i : Nat) :
    List String → List String
  | [] => []
  | p :: ps => fallbackSlot cfg p (outcomes i) :: batchAux cfg outcomes (i + 1) ps

/-- `OllamaClient.enhance_prompts_batch`. -/
def enhance_prompts_batch (cfg : OllamaConfig) (outcomes : Nat → HttpOutcome)
    (prompts : List String) : List String :=
  batchAux cfg outcomes 0 prompts

/-- The fan-out of `enhance_prompts_concurrent` (client.py lines 316-335):
slot `i` is written by the task for prompt `i`, run on client
`clients[i % len(clients)]`; a task failure writes the original prompt.
Because every task owns its own slot and `asyncio.gather` joins them all,
the result is this per-index map, independent of completion order. -/
def poolAux (clients : List OllamaConfig) (outcomes : Nat → HttpOutcome) (i : Nat) :
    List String → List String
  | [] => []
  | p :: ps =>
    fallbackSlot (clients.getD (i % clients.length) defaultOllamaConfig) p (outcomes i)
      :: poolAux clients outcomes (i + 1) ps

/-- `OllamaClientPool.enhance_prompts_concurrent`, with the early return on
an empty prompt list (client.py lines 311-312). -/
def enhance_prompts_concurrent (clients : List OllamaConfig)
    (outcomes : Nat → HttpOutcome) (prompts : List String) : List String :=
  if prompts.isEmpty then [] else poolAux clients outcomes 0 prompts

/-! ### `ConfigManager.save_config` (config.py lines 126-142)

The code targets pydantic v2 (it imports `field_validator` and calls
`model_dump`, both v2-only APIs; the tests assert the v2 URL normalization
`http://example.com:8080/`).  Under pydantic v2, `model_dump()` (python
mode, as called here) returns the `HttpUrl` field as a `pydantic_core.Url`
object, not a `str`; `PyValue` models the dumped data with that
distinction, and `jsonDump` models `json.dump`, which raises `TypeError`
on any object it cannot serialize. -/

/-- A Python value as produced by `Config.model_dump()`: JSON-ready
scalars and containers, plus the `Url` object pydantic keeps for `HttpUrl`
fields (floats are carried by their rendered literal). -/
inductive PyValue where
  | str (s : String)
  | int (n : Int)
  | float (lexeme : String)
  | bool (b : Bool)
  | none
  | url (u : String)
  | list (xs : List PyValue)
  | dict (fields : List (String × PyValue))
deriving Inhabited, Repr

/-- `PromptConfig` (config.py lines 26-42). -/
structure PromptConfig where
  max_tokens : Int
  template_language : String
  template_max_tokens : Int
  expansion_targets : List String
  expansion_excludes : List String
deriving DecidableEq, Repr

/-- `UIConfig` (config.py lines 45-50). -/
structure UIConfig where
  show_progress : Bool
  show_status : Bool
  show_preview : Bool
deriving DecidableEq, Repr

/-- `LoggingConfig` (config.py lines 53-60). -/
structure LoggingConfig where
  level : String
  format : String
  include_timestamp : Bool
  log_api_communication : Bool
  log_prompt_conversion : Bool
deriving DecidableEq, Repr

/-- `PerformanceConfig` (config.py lines 63-67); the float field is carried
by its rendered literal. -/
structure PerformanceConfig where
  memory_limit_gb : String
  cpu_limit_percent : Int
deriving DecidableEq, Repr

/-- The top-level `Config` model (config.py lines 70-77). -/
structure Config where
  ollama : OllamaConfig
  prompt : PromptConfig
  ui : UIConfig
  logging : LoggingConfig
  performance : PerformanceConfig
deriving DecidableEq, Repr

/-- `Config.model_dump()` under pydantic v2: nested dicts of field values
in declaration order; the `HttpUrl` endpoint stays a `Url` object. -/
def model_dump (c : Config) : PyValue :=
  .dict
    [("ollama", .dict
        [("endpoint", .url c.ollama.endpoint),
         ("model", .str c.ollama.model),
         ("timeout", .int c.ollama.timeout),
         ("max_retries", .int c.ollama.max_retries)]),
     ("prompt", .dict
        [("max_tokens", .int c.prompt.max_tokens),
         ("template_language", .str c.prompt.template_language),
         ("template_max_tokens", .int c.prompt.template_max_tokens),
         ("expansion_targets", .list (c.prompt.expansion_targets.map PyValue.str)),
         ("expansion_excludes", .list (c.prompt.expansion_excludes.map PyValue.str))]),
     ("ui", .dict
        [("show_progress", .bool c.ui.show_progress),
         ("show_status", .bool c.ui.show_status),
         ("show_preview", .bool c.ui.show_preview)]),
     ("logging", .dict
        [("level", .str c.logging.level),
         ("format", .str c.logging.format),
         ("include_timestamp", .bool c.logging.include_timestamp),
         ("log_api_communication", .bool c.logging.log_api_communication),
         ("log_prompt_conversion", .bool c.logging.log_prompt_conversion)]),
     ("performance", .dict
        [("memory_limit_gb", .float c.performance.memory_limit_gb),
         ("cpu_limit_percent", .int c.performance.cpu_limit_percent)])]

/-- Minimal JSON string quoting (enough for the dump model; the error path
never reaches it past the first field). -/
def jsonQuote (s : String) : String := "\"" ++ s ++ "\""

/-- Model of `json.dump`: serialize values in order and raise `TypeError`
at the first object it cannot serialize — in particular any pydantic `Url`.
The fuel mirrors the interpreter recursion limit. -/
def jsonDump : Nat → PyValue → Except String String
  | 0, _ => .error "maximum recursion depth exceeded"
  | fuel + 1, v =>
    match v with
    | .str s => .ok (jsonQuote s)
    | .int n => .ok (toString n)
    | .float lexeme => .ok lexeme
    | .bool b => .ok (if b then "true" else "false")
    | .none => .ok "null"
    | .url _ => .error "Object of type Url is not JSON serializable"
    | .list xs => do
      let parts ← xs.mapM (jsonDump fuel)
      .ok ("[" ++ String.intercalate ", " parts ++ "]")
    | .dict fs => do
      let parts ← fs.mapM (fun kv => do
        let vs ← jsonDump fuel kv.2
        pure (jsonQuote kv.1 ++ ": " ++ vs))
      .ok ("\x7b" ++ String.intercalate ", " parts ++ "\x7d")

/-- `ConfigManager.save_config` with a config loaded (config.py lines
138-142): `json.dump(self._config.model_dump(), f)`, re-raising any
serialization failure as `ValueError("Error saving config: ...")`. -/
def save_config (c : Config) : Except String String :=
  match jsonDump 1000 (model_dump c) with
  | .ok out => .ok out
  | .error e => .error ("Error saving config: " ++ e)

/-! ### The parsing chain in the words of the specification

`parseChainClaim` is the literal three-step priority chain of the claim:
JSON field, else first qualifying line, else the whole trimmed body — with
no provision for a failed JSON parse of a brace-opened body.
`parseChainAmended` adds exactly what the code forces: when the stripped
body opens with a brace but `json.loads` fails, or the found field value is
not a string, the whole trimmed body is returned (the logged internal-error
path).  Both reuse the elementary string models above; the line scan of
step 2 is word-for-word the `scanLines` description. -/

/-- The claimed chain, as stated: step 1 whenever the body parses as a
JSON object with a string `response` or `text` field, step 2 otherwise. -/
def parseChainClaim (s : String) : String :=
  match loads s with
  | some (Json.obj fields) =>
    match dictLookup fields "response" with
    | some (Json.str v) => pyStrip v
    | _ =>
      match dictLookup fields "text" with
      | some (Json.str v) => pyStrip v
      | _ => scanLines s
  | _ => scanLines s

/-- The Python class of the exception carried by a failed call — what a
caller catching exceptions by type can distinguish. -/
def raisedClass : Except PyExc String → Option String
  | .error (.ollamaAPIError _) => some "OllamaAPIError"
  | .error .requestsTimeout => some "Timeout"
  | .error .requestsConnectionError => some "ConnectionError"
  | .error .jsonDecodeError => some "JSONDecodeError"
  | .error .attributeError => some "AttributeError"
  | .error .typeError => some "TypeError"
  | .ok _ => Option.none

/-- First character of a string; separates the fixed openings of the three
error-message families. -/
def firstChar (s : String) : Option Char := s.data.head?

/-- The amended chain: as claimed, except that a brace-opened body whose
JSON parse fails, or whose found `response` / `text` value is not a
string, yields the whole trimmed body. -/
def parseChainAmended (s : String) : String :=
  if pyStarts (pyStrip s) "\x7b" then
    match loads s with
    | none => pyStrip s
    | some (Json.obj fields) =>
      match dictLookup fields "response" with
      | some (Json.str v) => pyStrip v
      | some _ => pyStrip s
      | none =>
        match dictLookup fields "text" with
        | some (Json.str v) => pyStrip v
        | some _ => pyStrip s
        | none => scanLines s
    | some _ => scanLines s
  else scanLines s

/-! ## Helper lemmas -/

/-- A string keeps its first character under appending on the right. -/
theorem firstChar_append (a b : String) (c : Char) (h : firstChar a = some c) :
    firstChar (a ++ b) = some c := by
  unfold firstChar at h ⊢
  rw [String.data_append]
  cases hd : a.data with
  | nil => rw [hd] at h; simp at h
  | cons x xs =>
    rw [hd] at h
    simp at h
    simp [h]

/-- A string is strictly shorter than itself extended by `, ` and a tail. -/
theorem self_ne_append_comma (o e : String) : o ≠ o ++ ", " ++ e := by
  intro h
  have hl := congrArg String.length h
  rw [String.length_append, String.length_append] at hl
  have h2 : (", " : String).length = 2 := rfl
  omega

/-! ## The claims -/

/-- C1: for every original prompt and generated addition extracted from a
successful server reply, `enhance` returns `original ++ ", " ++ addition`
exactly when the addition is non-empty and differs case-insensitively from
the original, and the original unchanged otherwise; a 200 reply whose
`response` field is the string `v` feeds `_parse_response v` into that
combination rule. -/
theorem claim_C1 (original enhanced : String) :
    (combine original enhanced = original ++ ", " ++ enhanced ↔
      enhanced ≠ "" ∧ pyLower enhanced ≠ pyLower original)
    ∧ (¬(enhanced ≠ "" ∧ pyLower enhanced ≠ pyLower original) →
        combine original enhanced = original)
    ∧ ∀ (cfg : OllamaConfig) (body : String) (fields : List (String × Json)) (v : String),
        loads body = some (Json.obj fields) →
        dictLookup fields "response" = some (Json.str v) →
        enhance_prompt cfg original (.ok 200 body) =
          .ok (combine original (parse_response v)) := by
  refine ⟨⟨fun h => ?_, fun h => ?_⟩, fun h => ?_, fun cfg body fields v hl hr => ?_⟩
  · by_contra hc
    rw [combine, if_neg hc] at h
    exact self_ne_append_comma original enhanced h
  · rw [combine, if_pos h]
  · rw [combine, if_neg h]
  · simp [enhance_prompt, enhanceTry, hl, hr]

/-- C1 witness: `enhance("a cat")` with addition `sitting on a mat` yields
the concatenation; an addition matching the prompt case-insensitively
leaves it unchanged; and a 200 reply carrying a string `response` field
goes through the combination rule. -/
theorem claim_C1_witness :
    combine "a cat" "sitting on a mat" = "a cat" ++ ", " ++ "sitting on a mat"
    ∧ combine "a cat" "A Cat" = "a cat"
    ∧ enhance_prompt defaultOllamaConfig "a cat"
        (.ok 200 "\x7b\"response\": \"sitting on a mat\"\x7d") =
      .ok (combine "a cat" (parse_response "sitting on a mat")) :=
  ⟨((claim_C1 "a cat" "sitting on a mat").1).mpr (by decide),
   (claim_C1 "a cat" "A Cat").2.1 (by decide),
   (claim_C1 "a cat" "A Cat").2.2 defaultOllamaConfig
     "\x7b\"response\": \"sitting on a mat\"\x7d"
     [("response", Json.str "sitting on a mat")] "sitting on a mat" rfl rfl⟩

/-- C6: `_parse_response` never raises — every input yields a string, and
whenever a statement inside its `try` block raises (the `none` case of the
inner model), the result is the stripped raw input. -/
theorem claim_C6 (s : String) (h : parse_response_try s = none) :
    parse_response s = pyStrip s := by
  unfold parse_response
  rw [h]
  rfl

/-- C6 witness: a brace-opened non-JSON body takes the exception path and
comes back stripped. -/
theorem claim_C6_witness :
    parse_response_try "\x7boops" = none
    ∧ parse_response "\x7boops" = pyStrip "\x7boops" :=
  ⟨rfl, claim_C6 "\x7boops" rfl⟩

/-- C9: every exception escaping `enhance_prompt` is an `OllamaAPIError`:
for every configuration, prompt and network outcome the call either
returns a string or fails with `PyExc.ollamaAPIError`; no other exception
constructor ever escapes. -/
theorem claim_C9 (cfg : OllamaConfig) (original : String) (h : HttpOutcome) :
    (∃ s, enhance_prompt cfg original h = .ok s)
    ∨ (∃ m, enhance_prompt cfg original h = .error (.ollamaAPIError m)) := by
  unfold enhance_prompt
  cases he : enhanceTry original h with
  | ok r => exact Or.inl ⟨r, rfl⟩
  | error e =>
    cases e with
    | requestsTimeout => exact Or.inr ⟨_, rfl⟩
    | requestsConnectionError => exact Or.inr ⟨_, rfl⟩
    | jsonDecodeError => exact Or.inr ⟨_, rfl⟩
    | attributeError => exact Or.inr ⟨_, rfl⟩
    | typeError => exact Or.inr ⟨_, rfl⟩
    | ollamaAPIError m => exact Or.inr ⟨_, rfl⟩

/-- C10: a 200 reply decoding to a JSON object with no top-level
`response` field does not raise: the stringified object (Python
`str(response_data)`) is fed to the combination rule. -/
theorem claim_C10 (cfg : OllamaConfig) (original body : String)
    (fields : List (String × Json))
    (hl : loads body = some (Json.obj fields))
    (hr : dictLookup fields "response" = none) :
    enhance_prompt cfg original (.ok 200 body) =
      .ok (combine original (pyStr (Json.obj fields))) := by
  simp [enhance_prompt, enhanceTry, hl, hr]

/-- C10 witness: a 200 reply of `\x7b"text": "hi"\x7d` (no `response`
field) returns the stringified dict combined with the original prompt. -/
theorem claim_C10_witness :
    loads "\x7b\"text\": \"hi\"\x7d" = some (Json.obj [("text", Json.str "hi")])
    ∧ dictLookup [("text", Json.str "hi")] "response" = Option.none
    ∧ enhance_prompt defaultOllamaConfig "a cat" (.ok 200 "\x7b\"text\": \"hi\"\x7d") =
        .ok (combine "a cat" (pyStr (Json.obj [("text", Json.str "hi")]))) :=
  ⟨rfl, rfl, claim_C10 defaultOllamaConfig "a cat" "\x7b\"text\": \"hi\"\x7d"
    [("text", Json.str "hi")] rfl rfl⟩

/-- C5 counterexample: the claim promises distinguishable error kinds
(`APITimeout` vs `APIConnectionError` vs `APIStatusError`), but the code
raises the single class `OllamaAPIError` for a timeout, a connection
failure and a non-200 status alike — a caller catching by type sees one
and the same class in all three cases. -/
theorem claim_C5_counterexample :
    raisedClass (enhance_prompt defaultOllamaConfig "a cat" .timeout) = some "OllamaAPIError"
    ∧ raisedClass (enhance_prompt defaultOllamaConfig "a cat" .connError) =
        some "OllamaAPIError"
    ∧ raisedClass (enhance_prompt defaultOllamaConfig "a cat" (.ok 500 "err")) =
        some "OllamaAPIError"
    ∧ raisedClass (enhance_prompt defaultOllamaConfig "a cat" .timeout) =
        raisedClass (enhance_prompt defaultOllamaConfig "a cat" .connError) :=
  ⟨rfl, rfl, rfl, rfl⟩

/-- C5 as amended: every send failure raises the one type
`OllamaAPIError`; the failure class is identified only by the message,
and the three messages are pairwise distinct (their fixed openings
differ), so the classes remain distinguishable by message text, not by
error kind. -/
theorem claim_C5 (cfg : OllamaConfig) (original : String) (status : Nat) (body : String)
    (hs : status ≠ 200) :
    enhance_prompt cfg original .timeout = .error (.ollamaAPIError (timeoutMsg cfg))
    ∧ enhance_prompt cfg original .connError = .error (.ollamaAPIError (connectionMsg cfg))
    ∧ enhance_prompt cfg original (.ok status body) =
        .error (.ollamaAPIError (unexpectedMsg (statusMsg status body)))
    ∧ timeoutMsg cfg ≠ connectionMsg cfg
    ∧ timeoutMsg cfg ≠ unexpectedMsg (statusMsg status body)
    ∧ connectionMsg cfg ≠ unexpectedMsg (statusMsg status body) := by
  have ht : firstChar (timeoutMsg cfg) = some 'R' := by
    unfold timeoutMsg
    exact firstChar_append _ _ _ rfl
  have hc : firstChar (connectionMsg cfg) = some 'C' := by
    unfold connectionMsg
    exact firstChar_append _ _ _ rfl
  have hu : firstChar (unexpectedMsg (statusMsg status body)) = some 'U' := by
    unfold unexpectedMsg
    exact firstChar_append _ _ _ rfl
  refine ⟨rfl, rfl, ?_, ?_, ?_, ?_⟩
  · simp [enhance_prompt, enhanceTry, excStr, hs]
  · intro h
    rw [h, hc] at ht
    simp at ht
  · intro h
    rw [h, hu] at ht
    simp at ht
  · intro h
    rw [h, hu] at hc
    simp at hc

/-- C5 witness: at the default configuration and status 500 the three
failures produce the one class with its three distinct messages. -/
theorem claim_C5_witness :
    (500 : Nat) ≠ 200
    ∧ enhance_prompt defaultOllamaConfig "p" .timeout =
        .error (.ollamaAPIError (timeoutMsg defaultOllamaConfig))
    ∧ enhance_prompt defaultOllamaConfig "p" (.ok 500 "boom") =
        .error (.ollamaAPIError (unexpectedMsg (statusMsg 500 "boom")))
    ∧ timeoutMsg defaultOllamaConfig ≠ connectionMsg defaultOllamaConfig :=
  ⟨by decide,
   (claim_C5 defaultOllamaConfig "p" 500 "boom" (by decide)).1,
   (claim_C5 defaultOllamaConfig "p" 500 "boom" (by decide)).2.2.1,
   (claim_C5 defaultOllamaConfig "p" 500 "boom" (by decide)).2.2.2.1⟩

/-- C2 counterexample: on a multi-line body that opens with a brace but is
not valid JSON, the claimed chain would return the first qualifying line,
but the code reaches the `except` handler inside `json.loads` and returns
the whole stripped body instead. -/
theorem claim_C2_counterexample :
    parse_response "\x7boops\nsecond" = "\x7boops\nsecond"
    ∧ parseChainClaim "\x7boops\nsecond" = "\x7boops"
    ∧ parse_response "\x7boops\nsecond" ≠ parseChainClaim "\x7boops\nsecond" := by
  refine ⟨rfl, rfl, ?_⟩
  decide

/-- C2 as amended: `_parse_response` follows the claimed priority chain —
string `response`/`text` field of a parsed JSON object, else first
non-empty non-comment line with a known label stripped, else the whole
trimmed body — except that a brace-opened body whose JSON parse fails, or
whose found field value is not a string, returns the whole trimmed body
(the internal-error path). -/
theorem claim_C2 (s : String) : parse_response s = parseChainAmended s := by
  unfold parse_response parse_response_try parseChainAmended
  cases hb : pyStarts (pyStrip s) "\x7b" with
  | false => simp
  | true =>
    cases hl : loads s with
    | none => simp
    | some val =>
      cases val with
      | null => simp
      | bool b => simp
      | num lexeme => simp
      | str sv => simp
      | arr elems => simp
      | obj fields =>
        cases hr : dictLookup fields "response" with
        | none =>
          cases htx : dictLookup fields "text" with
          | none => simp [hr, htx]
          | some tv => cases tv <;> simp [hr, htx]
        | some rv => cases rv <;> simp [hr]

/-- C7: any out-of-range field — `timeout` outside `1..300`, `max_retries`
outside `1..10`, or an empty / whitespace-only model name — makes the
construction of `OllamaConfig` fail with a validation error instead of
clamping or accepting the value. -/
theorem claim_C7 (endpoint model : String) (timeout max_retries : Int)
    (h : timeout < 1 ∨ 300 < timeout ∨ max_retries < 1 ∨ 10 < max_retries ∨
      pyStrip model = "") :
    ∃ errs, mkOllamaConfig endpoint model timeout max_retries = .error errs := by
  have hne : configErrors model timeout max_retries ≠ [] := by
    unfold configErrors
    rcases h with h | h | h | h | h
    · rw [if_pos (Or.inl h)]
      simp
    · rw [if_pos (Or.inr h)]
      simp
    · rw [if_pos (Or.inl h : max_retries < 1 ∨ 10 < max_retries)]
      simp
    · rw [if_pos (Or.inr h : max_retries < 1 ∨ 10 < max_retries)]
      simp
    · rw [if_pos h]
      simp
  unfold mkOllamaConfig
  rw [if_neg (by simpa using hne)]
  exact ⟨_, rfl⟩

/-- C7 witness: `timeout = 0` is rejected at construction. -/
theorem claim_C7_witness :
    ((0 : Int) < 1 ∨ (300 : Int) < 0 ∨ (5 : Int) < 1 ∨ (10 : Int) < 5 ∨
      pyStrip "openhermes" = "")
    ∧ ∃ errs, mkOllamaConfig "http://localhost:11434" "openhermes" 0 5 = .error errs :=
  ⟨Or.inl (by decide),
   claim_C7 "http://localhost:11434" "openhermes" 0 5 (Or.inl (by decide))⟩

/-- C8: the save half of the round trip never succeeds — for every
configuration, `save_config` raises `ValueError` because pydantic-v2
`model_dump()` keeps the `HttpUrl` endpoint as a `Url` object, which
`json.dump` cannot serialize.  This contradicts the claimed save-then-load
identity (and the repository tests `test_save_config` /
`test_load_default_config`, which expect saving to succeed). -/
theorem claim_C8 (c : Config) :
    save_config c = .error "Error saving config: Object of type Url is not JSON serializable" :=
  rfl

/-! ### Batch and pool lemmas -/

/-- The batch loop preserves the number of prompts. -/
theorem batchAux_length (cfg : OllamaConfig) (outcomes : Nat → HttpOutcome) :
    ∀ (ps : List String) (k : Nat), (batchAux cfg outcomes k ps).length = ps.length := by
  intro ps
  induction ps with
  | nil => intro k; rfl
  | cons p ps ih => intro k; simp [batchAux, ih]

/-- Slot `i` of the batch loop started at index `k` is the fallback slot of
prompt `i` under outcome `k + i`. -/
theorem batchAux_getD (cfg : OllamaConfig) (outcomes : Nat → HttpOutcome) :
    ∀ (ps : List String) (k i : Nat), i < ps.length →
      (batchAux cfg outcomes k ps).getD i "" =
        fallbackSlot cfg (ps.getD i "") (outcomes (k + i)) := by
  intro ps
  induction ps with
  | nil => intro k i hi; simp at hi
  | cons p ps ih =>
    intro k i hi
    cases i with
    | zero => simp [batchAux]
    | succ j =>
      have hj : j < ps.length := by simpa using hi
      have := ih (k + 1) j hj
      simpa [batchAux, Nat.add_assoc, Nat.add_comm, Nat.add_left_comm] using this

/-- The pool fan-out preserves the number of prompts. -/
theorem poolAux_length (clients : List OllamaConfig) (outcomes : Nat → HttpOutcome) :
    ∀ (ps : List String) (k : Nat), (poolAux clients outcomes k ps).length = ps.length := by
  intro ps
  induction ps with
  | nil => intro k; rfl
  | cons p ps ih => intro k; simp [poolAux, ih]

/-- Slot `i` of the pool fan-out started at index `k` is the fallback slot
of prompt `i`, served by client `(k + i) % N`. -/
theorem poolAux_getD (clients : List OllamaConfig) (outcomes : Nat → HttpOutcome) :
    ∀ (ps : List String) (k i : Nat), i < ps.length →
      (poolAux clients outcomes k ps).getD i "" =
        fallbackSlot (clients.getD ((k + i) % clients.length) defaultOllamaConfig)
          (ps.getD i "") (outcomes (k + i)) := by
  intro ps
  induction ps with
  | nil => intro k i hi; simp at hi
  | cons p ps ih =>
    intro k i hi
    cases i with
    | zero => simp [poolAux]
    | succ j =>
      have hj : j < ps.length := by simpa using hi
      have := ih (k + 1) j hj
      simpa [poolAux, Nat.add_assoc, Nat.add_comm, Nat.add_left_comm] using this

/-- The empty-prompt early return agrees with the fan-out loop. -/
theorem pool_eq_aux (clients : List OllamaConfig) (outcomes : Nat → HttpOutcome)
    (prompts : List String) :
    enhance_prompts_concurrent clients outcomes prompts = poolAux clients outcomes 0 prompts := by
  cases prompts <;> rfl

/-- C4: `enhance_prompts_batch` never raises (it is a total function into
plain string lists), preserves the length, and fills each slot with the
enhanced prompt when the call for that slot succeeds and with the original
prompt when it fails. -/
theorem claim_C4 (cfg : OllamaConfig) (outcomes : Nat → HttpOutcome)
    (prompts : List String) :
    (enhance_prompts_batch cfg outcomes prompts).length = prompts.length
    ∧ ∀ i, i < prompts.length →
      (∀ r, enhance_prompt cfg (prompts.getD i "") (outcomes i) = .ok r →
        (enhance_prompts_batch cfg outcomes prompts).getD i "" = r)
      ∧ ((∃ e, enhance_prompt cfg (prompts.getD i "") (outcomes i) = .error e) →
        (enhance_prompts_batch cfg outcomes prompts).getD i "" = prompts.getD i "") := by
  unfold enhance_prompts_batch
  refine ⟨batchAux_length cfg outcomes prompts 0, fun i hi => ⟨?_, ?_⟩⟩
  · intro r hr
    rw [batchAux_getD cfg outcomes prompts 0 i hi, Nat.zero_add]
    unfold fallbackSlot
    rw [hr]
  · rintro ⟨e, he⟩
    rw [batchAux_getD cfg outcomes prompts 0 i hi, Nat.zero_add]
    unfold fallbackSlot
    rw [he]

/-- C4 witness: the claimed example — a two-prompt batch whose second call
fails returns the enhanced first prompt and the original second prompt. -/
theorem claim_C4_witness :
    (enhance_prompts_batch defaultOllamaConfig
      (fun i => if i = 0 then .ok 200 "\x7b\"response\": \"nice\"\x7d" else .timeout)
      ["p1", "p2"]).length = 2
    ∧ (enhance_prompts_batch defaultOllamaConfig
        (fun i => if i = 0 then .ok 200 "\x7b\"response\": \"nice\"\x7d" else .timeout)
        ["p1", "p2"]).getD 0 "" = "p1, nice"
    ∧ (enhance_prompts_batch defaultOllamaConfig
        (fun i => if i = 0 then .ok 200 "\x7b\"response\": \"nice\"\x7d" else .timeout)
        ["p1", "p2"]).getD 1 "" = "p2" :=
  ⟨(claim_C4 defaultOllamaConfig
      (fun i => if i = 0 then .ok 200 "\x7b\"response\": \"nice\"\x7d" else .timeout)
      ["p1", "p2"]).1,
   ((claim_C4 defaultOllamaConfig
      (fun i => if i = 0 then .ok 200 "\x7b\"response\": \"nice\"\x7d" else .timeout)
      ["p1", "p2"]).2 0 (by decide)).1 "p1, nice" rfl,
   ((claim_C4 defaultOllamaConfig
      (fun i => if i = 0 then .ok 200 "\x7b\"response\": \"nice\"\x7d" else .timeout)
      ["p1", "p2"]).2 1 (by decide)).2
     ⟨.ollamaAPIError (timeoutMsg defaultOllamaConfig), rfl⟩⟩

/-- C3: `enhance_prompts_concurrent` returns `[]` on an empty input;
otherwise the result has the same length and order as the input (slot `i`
of the output belongs to prompt `i`), prompt `i` is served by client
`i % N`, a successful slot holds the enhanced prompt, a failed slot holds
the original prompt, and no failure escapes (the function is total). -/
theorem claim_C3 (clients : List OllamaConfig) (outcomes : Nat → HttpOutcome)
    (prompts : List String) (_hN : 0 < clients.length) :
    (prompts = [] → enhance_prompts_concurrent clients outcomes prompts = [])
    ∧ (enhance_prompts_concurrent clients outcomes prompts).length = prompts.length
    ∧ ∀ i, i < prompts.length →
      (∀ r, enhance_prompt (clients.getD (i % clients.length) defaultOllamaConfig)
          (prompts.getD i "") (outcomes i) = .ok r →
        (enhance_prompts_concurrent clients outcomes prompts).getD i "" = r)
      ∧ ((∃ e, enhance_prompt (clients.getD (i % clients.length) defaultOllamaConfig)
          (prompts.getD i "") (outcomes i) = .error e) →
        (enhance_prompts_concurrent clients outcomes prompts).getD i "" =
          prompts.getD i "") := by
  rw [pool_eq_aux]
  refine ⟨fun he => by rw [he]; rfl,
          poolAux_length clients outcomes prompts 0, fun i hi => ⟨?_, ?_⟩⟩
  · intro r hr
    rw [poolAux_getD clients outcomes prompts 0 i hi, Nat.zero_add]
    unfold fallbackSlot
    rw [hr]
  · rintro ⟨e, he⟩
    rw [poolAux_getD clients outcomes prompts 0 i hi, Nat.zero_add]
    unfold fallbackSlot
    rw [he]

/-- C3 witness: a pool of two clients over three prompts that all time out
returns a three-element list in input order with every slot fallen back to
its original prompt; the empty input returns the empty list. -/
theorem claim_C3_witness :
    0 < ([defaultOllamaConfig, defaultOllamaConfig] : List OllamaConfig).length
    ∧ enhance_prompts_concurrent [defaultOllamaConfig, defaultOllamaConfig]
        (fun _ => .timeout) [] = []
    ∧ (enhance_prompts_concurrent [defaultOllamaConfig, defaultOllamaConfig]
        (fun _ => .timeout) ["p1", "p2", "p3"]).length = 3
    ∧ (enhance_prompts_concurrent [defaultOllamaConfig, defaultOllamaConfig]
        (fun _ => .timeout) ["p1", "p2", "p3"]).getD 1 "" = "p2" :=
  ⟨by decide,
   (claim_C3 [defaultOllamaConfig, defaultOllamaConfig] (fun _ => .timeout) []
     (by decide)).1 rfl,
   (claim_C3 [defaultOllamaConfig, defaultOllamaConfig] (fun _ => .timeout)
     ["p1", "p2", "p3"] (by decide)).2.1,
   ((claim_C3 [defaultOllamaConfig, defaultOllamaConfig] (fun _ => .timeout)
     ["p1", "p2", "p3"] (by decide)).2.2 1 (by decide)).2
     ⟨.ollamaAPIError (timeoutMsg defaultOllamaConfig), rfl⟩⟩

end OllamaPlugin
